import Mathlib

/-!
Shallow embedding of the diego-ssh session channel handler
(`handlers/session_channel_handler.go`).

Go maps are reference types: a `session` stores a reference (an index) into a
`Store` of maps, so that aliasing between the handler's `defaultEnv` and the
sessions it creates is modelled faithfully.  Observable effects (channel
replies, SCP dispatch, child start, signals, exit messages, closes) are
recorded as an ordered event list.  External outcomes (pty open, process
start, process wait) are inputs to the model, mirroring the `Runner`
interface.
-/

namespace DiegoSSH

/-- A Go `map[string]string`, modelled as an association list. -/
abbrev EnvMap := List (String × String)

/-- Go map assignment `m[k] = v`: any existing binding of `k` is replaced. -/
def mapSet (m : EnvMap) (k v : String) : EnvMap :=
  m.filter (fun p => p.1 != k) ++ [(k, v)]

/-- The heap of live Go maps; a map reference is an index into the store. -/
abbrev Store := List EnvMap

/-- Dereference a map reference (reads of a Go map). -/
def storeGet (st : Store) (r : Nat) : EnvMap :=
  st.getD r []

/-- Write through a map reference (writes to a Go map). -/
def storeSet (st : Store) (r : Nat) (m : EnvMap) : Store :=
  st.set r m

/-- The `ptyRequestMsg` payload of a `pty-req` request. -/
structure PtyRequestMsg where
  term : String
  columns : Nat
  rows : Nat
  width : Nat
  height : Nat
  modelist : List Nat
  deriving DecidableEq

/-- An `exec.Cmd` as built by `createCommand`: path, args and environment. -/
structure Cmd where
  path : String
  args : List String
  env : List String
  deriving DecidableEq

/-- Observable effects of the handler, in the order they happen. -/
inductive Event where
  | reply (ok : Bool)
  | scpRequest (cmd : String)
  | termAttr (opcode value : Nat)
  | setWinSize (columns rows : Nat)
  | startCommand (path : String) (args : List String) (env : List String)
  | signalChild (signal : Nat)
  | sendExitStatus (status : Nat)
  | sendExitSignal (signal : String) (coreDumped : Bool)
  | closeChannel
  | closePtyMaster
  deriving DecidableEq

/-- The `session` struct.  `env` is a reference into the `Store`;
`hasChannel` and `ptyMaster` record whether those handles are non-nil. -/
structure Session where
  complete : Bool
  shellPath : String
  hasChannel : Bool
  env : Nat
  command : Option Cmd
  allocPty : Bool
  ptyRequest : PtyRequestMsg
  ptyMaster : Bool
  deriving DecidableEq

/-- The `SessionChannelHandler` struct: the shell path its locator returns and
a reference to its `defaultEnv` map. -/
structure SessionChannelHandler where
  shellPath : String
  defaultEnv : Nat
  deriving DecidableEq

/-- Host-process facts the handler reads: `os.Getenv` for HOME/USER, and
which termios opcodes have an entry in `TermAttrSetters`. -/
structure Host where
  home : String
  user : String
  hasTermSetter : Nat → Bool

/-- `newSession`: the fresh session built on channel accept.  All fields not
assigned in the Go literal take Go zero values; `env` is assigned the
handler's `defaultEnv` map reference (not a copy). -/
def newSession (handler : SessionChannelHandler) : Session :=
  { complete := false
    shellPath := handler.shellPath
    hasChannel := true
    env := handler.defaultEnv
    command := none
    allocPty := false
    ptyRequest := { term := "", columns := 0, rows := 0, width := 0, height := 0, modelist := [] }
    ptyMaster := false }

/-- `ssh.Request.Reply` from golang.org/x/crypto/ssh: it sends a reply on the
wire iff the request had `want_reply` set, and is documented as a no-op
otherwise. -/
def replyCall (wantReply ok : Bool) : List Event :=
  if wantReply then [Event.reply ok] else []

/-- Whitespace class `\s` of Go's regexp (RE2): `[\t\n\f\r ]`. -/
def reSpace (c : Char) : Bool :=
  c = ' ' || c = '\t' || c = '\n' || c = '\x0c' || c = '\r'

/-- `scpRegex.MatchString` for the anchored pattern `^\s*scp($|\s+)`:
after any leading whitespace the text starts with `scp` followed by end of
text or a whitespace character. -/
def scpMatch (cmd : String) : Bool :=
  match cmd.toList.dropWhile reSpace with
  | 's' :: 'c' :: 'p' :: [] => true
  | 's' :: 'c' :: 'p' :: c :: _ => reSpace c
  | _ => false

/-- `session.environment()`: PATH and LANG first, then every session env var
except HOME and USER, then HOME and USER read from the host process env. -/
def environment (m : EnvMap) (host : Host) : List String :=
  ["PATH=/bin:/usr/bin", "LANG=en_US.UTF8"]
    ++ (m.filter (fun p => p.1 != "HOME" && p.1 != "USER")).map (fun p => p.1 ++ "=" ++ p.2)
    ++ ["HOME=" ++ host.home, "USER=" ++ host.user]

/-- The `envMsg` payload of an `env` request. -/
structure EnvMsg where
  name : String
  value : String
  deriving DecidableEq

/-- The `signalMsg` payload of a `signal` request. -/
structure SignalMsg where
  signal : String
  deriving DecidableEq

/-- The `windowChangeMsg` payload of a `window-change` request. -/
structure WindowChangeMsg where
  columns : Nat
  rows : Nat
  widthPx : Nat
  heightPx : Nat
  deriving DecidableEq

/-- The `execMsg` payload of an `exec` request. -/
structure ExecMsg where
  command : String
  deriving DecidableEq

/-- Modelled from the spec: the `SyscallSignals` table of §4.A (its defining
file, the signal tables, is not under src/).  It maps the SSH signal names
ABRT, ALRM, FPE, HUP, ILL, INT, KILL, PIPE, QUIT, SEGV, TERM, USR1, USR2 to
the corresponding OS signal numbers; a Go map read with a missing key yields
the zero value, signal number 0. -/
def syscallSignals (name : String) : Nat :=
  if name = "ABRT" then 6
  else if name = "ALRM" then 14
  else if name = "FPE" then 8
  else if name = "HUP" then 1
  else if name = "ILL" then 4
  else if name = "INT" then 2
  else if name = "KILL" then 9
  else if name = "PIPE" then 13
  else if name = "QUIT" then 3
  else if name = "SEGV" then 11
  else if name = "TERM" then 15
  else if name = "USR1" then 10
  else if name = "USR2" then 12
  else 0

/-- Modelled from the spec: the `SSHSignals` table of §4.A, inverse of
`SyscallSignals`; a Go map read with a missing key yields "". -/
def sshSignals (signal : Nat) : String :=
  if signal = 6 then "ABRT"
  else if signal = 14 then "ALRM"
  else if signal = 8 then "FPE"
  else if signal = 1 then "HUP"
  else if signal = 4 then "ILL"
  else if signal = 2 then "INT"
  else if signal = 9 then "KILL"
  else if signal = 13 then "PIPE"
  else if signal = 3 then "QUIT"
  else if signal = 11 then "SEGV"
  else if signal = 15 then "TERM"
  else if signal = 10 then "USR1"
  else if signal = 12 then "USR2"
  else ""

/-- `handleEnvironmentRequest`.  A failed unmarshal is `payload = none`: the
code there calls `request.Reply(false, nil)` unguarded, which the ssh library
turns into a wire reply only when `want_reply` was set. -/
def handleEnvironmentRequest (st : Store) (s : Session) (wantReply : Bool)
    (payload : Option EnvMsg) : Store × Session × List Event :=
  match payload with
  | none => (st, s, replyCall wantReply false)
  | some m =>
      let st' := storeSet st s.env (mapSet (storeGet st s.env) m.name m.value)
      (st', s, if wantReply then replyCall wantReply true else [])

/-- `handleSignalRequest`: translate the SSH signal name through
`SyscallSignals` and signal the child when one is running. -/
def handleSignalRequest (st : Store) (s : Session) (wantReply : Bool)
    (payload : Option SignalMsg) : Store × Session × List Event :=
  match payload with
  | none => (st, s, if wantReply then replyCall wantReply false else [])
  | some m =>
      let signalEvents :=
        match s.command with
        | none => []
        | some _ => [Event.signalChild (syscallSignals m.signal)]
      (st, s, signalEvents ++ (if wantReply then replyCall wantReply true else []))

/-- `handlePtyRequest`: record the pty request, mark `allocPty`, and store the
terminal name in the session env under TERM. -/
def handlePtyRequest (st : Store) (s : Session) (wantReply : Bool)
    (payload : Option PtyRequestMsg) : Store × Session × List Event :=
  match payload with
  | none => (st, s, if wantReply then replyCall wantReply false else [])
  | some m =>
      let s' := { s with allocPty := true, ptyRequest := m }
      let st' := storeSet st s.env (mapSet (storeGet st s.env) "TERM" m.term)
      (st', s', if wantReply then replyCall wantReply true else [])

/-- `handleWindowChangeRequest`: update the stored pty request when a pty was
requested, and push the (possibly updated) size to a live pty master. -/
def handleWindowChangeRequest (st : Store) (s : Session) (wantReply : Bool)
    (payload : Option WindowChangeMsg) : Store × Session × List Event :=
  match payload with
  | none => (st, s, if wantReply then replyCall wantReply false else [])
  | some m =>
      let s' :=
        if s.allocPty then
          { s with ptyRequest := { s.ptyRequest with columns := m.columns, rows := m.rows } }
        else s
      let winEvents :=
        if s'.ptyMaster then
          [Event.setWinSize s'.ptyRequest.columns s'.ptyRequest.rows]
        else []
      (st, s', winEvents ++ (if wantReply then replyCall wantReply true else []))

/-- The modelist scan of `setTerminalAttributes`: read a 1-byte opcode; stop
on end of input, opcode 0 or opcode ≥ 160; otherwise read a 4-byte big-endian
value (stopping if fewer than 4 bytes remain) and continue with the rest. -/
def parseModelist : List Nat → List (Nat × Nat)
  | [] => []
  | op :: rest =>
      if op = 0 || 160 ≤ op then []
      else
        match rest with
        | b1 :: b2 :: b3 :: b4 :: rest' =>
            (op, ((b1 * 256 + b2) * 256 + b3) * 256 + b4) :: parseModelist rest'
        | _ => []

/-- `setTerminalAttributes`: the attributes actually applied are the parsed
opcode/value pairs whose opcode has an entry in `TermAttrSetters`; per §4.A
of the spec an opcode with no entry is skipped, not fatal. -/
def setTerminalAttributes (hasTermSetter : Nat → Bool) (modelist : List Nat) :
    List (Nat × Nat) :=
  (parseModelist modelist).filter (fun p => hasTermSetter p.1)

/-- Outcome of `runner.Wait` on the child, as classified by
`sendExitMessage`: nil error, an error that is not an exec.ExitError carrying
a wait status, death by signal, or normal exit. -/
inductive WaitOutcome where
  | ok
  | otherError
  | signaled (signal : Nat) (coreDumped : Bool)
  | exited (status : Nat)
  deriving DecidableEq

/-- External outcomes of running a command: whether `pty.Open` fails, whether
`runner.Start` (or the stdin pipe) fails, and what `runner.Wait` returns. -/
structure RunOutcome where
  ptyOpenErr : Bool
  startErr : Bool
  waitRes : WaitOutcome
  deriving DecidableEq

/-- `sendExitMessage`: every call sends exactly one channel request — an
`exit-signal` when the child died of a signal, otherwise an `exit-status`
(0 for a nil error, the exit code for a normal exit, 255 for anything
unclassifiable). -/
def sendExitMessage (w : WaitOutcome) : Event :=
  match w with
  | .ok => .sendExitStatus 0
  | .otherError => .sendExitStatus 255
  | .signaled sig core => .sendExitSignal (sshSignals sig) core
  | .exited status => .sendExitStatus status

/-- `createCommand`: fails when a command was already started; otherwise
builds `exec.Command(shellPath, args...)` with `environment()` and records it
in the session. -/
def createCommand (host : Host) (st : Store) (s : Session) (args : List String) :
    Option (Cmd × Session) :=
  match s.command with
  | some _ => none
  | none =>
      let cmd : Cmd := { path := s.shellPath, args := args
                         env := environment (storeGet st s.env) host }
      some (cmd, { s with command := some cmd })

/-- `session.run` (no pty): wire the channel to the process and call
`runner.Start`; the Bool is whether starting failed. -/
def runCmd (s : Session) (cmd : Cmd) (oc : RunOutcome) :
    Session × List Event × Bool :=
  (s, [Event.startCommand cmd.path cmd.args cmd.env], oc.startErr)

/-- `session.runWithPty`: open the pty pair (an open failure returns before
the master is stored), store the master, apply the termios modelist and the
initial window size, then call `runner.Start`. -/
def runWithPty (host : Host) (s : Session) (cmd : Cmd) (oc : RunOutcome) :
    Session × List Event × Bool :=
  if oc.ptyOpenErr then (s, [], true)
  else
    let s' := { s with ptyMaster := true }
    let attrEvents := (setTerminalAttributes host.hasTermSetter s.ptyRequest.modelist).map
      (fun p => Event.termAttr p.1 p.2)
    (s', attrEvents
          ++ [Event.setWinSize s.ptyRequest.columns s.ptyRequest.rows,
              Event.startCommand cmd.path cmd.args cmd.env],
      oc.startErr)

/-- `session.destroy`: a no-op when already complete; otherwise marks the
session complete and closes the channel and the pty master when present. -/
def destroy (s : Session) : Session × List Event :=
  if s.complete then (s, [])
  else
    ({ s with complete := true },
      (if s.hasChannel then [Event.closeChannel] else [])
        ++ (if s.ptyMaster then [Event.closePtyMaster] else []))

/-- `session.executeShell`: create the command (replying false when one was
already started), reply true, run with or without a pty; a run error sends
`exit-status 255` and destroys; otherwise the wait result is turned into the
exit message and the session is destroyed. -/
def executeShell (host : Host) (st : Store) (s : Session) (wantReply : Bool)
    (args : List String) (oc : RunOutcome) : Store × Session × List Event :=
  match createCommand host st s args with
  | none => (st, s, if wantReply then replyCall wantReply false else [])
  | some cs =>
      let pre := if wantReply then replyCall wantReply true else []
      let r := if cs.2.allocPty then runWithPty host cs.2 cs.1 oc else runCmd cs.2 cs.1 oc
      if r.2.2 then
        let d := destroy r.1
        (st, d.1, pre ++ r.2.1 ++ [Event.sendExitStatus 255] ++ d.2)
      else
        let d := destroy r.1
        (st, d.1, pre ++ r.2.1 ++ [sendExitMessage oc.waitRes] ++ d.2)

/-- `handleExecRequest`: on an SCP-matching command the SCP handler is
invoked, and then — the code has no return there — `executeShell` still runs
`<shell> -c <Command>`. -/
def handleExecRequest (host : Host) (st : Store) (s : Session) (wantReply : Bool)
    (payload : Option ExecMsg) (oc : RunOutcome) : Store × Session × List Event :=
  match payload with
  | none => (st, s, if wantReply then replyCall wantReply false else [])
  | some m =>
      let scpEvents := if scpMatch m.command then [Event.scpRequest m.command] else []
      let r := executeShell host st s wantReply ["-c", m.command] oc
      (r.1, r.2.1, scpEvents ++ r.2.2)

/-- `handleShellRequest`: `executeShell` with no arguments. -/
def handleShellRequest (host : Host) (st : Store) (s : Session) (wantReply : Bool)
    (oc : RunOutcome) : Store × Session × List Event :=
  executeShell host st s wantReply [] oc

/-- A request arriving on the session channel.  A failed unmarshal of the
payload is `none`; exec/shell requests carry the external run outcome. -/
inductive Request where
  | env (wantReply : Bool) (payload : Option EnvMsg)
  | signal (wantReply : Bool) (payload : Option SignalMsg)
  | ptyReq (wantReply : Bool) (payload : Option PtyRequestMsg)
  | windowChange (wantReply : Bool) (payload : Option WindowChangeMsg)
  | exec (wantReply : Bool) (payload : Option ExecMsg) (oc : RunOutcome)
  | shell (wantReply : Bool) (oc : RunOutcome)
  | other (reqType : String) (wantReply : Bool)
  deriving DecidableEq

/-- The `want_reply` flag of a request. -/
def Request.wantReply : Request → Bool
  | .env wr _ => wr
  | .signal wr _ => wr
  | .ptyReq wr _ => wr
  | .windowChange wr _ => wr
  | .exec wr _ _ => wr
  | .shell wr _ => wr
  | .other _ wr => wr

/-- A request whose payload failed to unmarshal. -/
def Request.malformed : Request → Bool
  | .env _ p => p.isNone
  | .signal _ p => p.isNone
  | .ptyReq _ p => p.isNone
  | .windowChange _ p => p.isNone
  | .exec _ p _ => p.isNone
  | .shell _ _ => false
  | .other _ _ => false

/-- One iteration of the `serviceRequests` dispatch switch.  An unrecognized
type gets a false reply when `want_reply` is set and nothing else. -/
def step (host : Host) (st : Store) (s : Session) :
    Request → Store × Session × List Event
  | .env wr p => handleEnvironmentRequest st s wr p
  | .signal wr p => handleSignalRequest st s wr p
  | .ptyReq wr p => handlePtyRequest st s wr p
  | .windowChange wr p => handleWindowChangeRequest st s wr p
  | .exec wr p oc => handleExecRequest host st s wr p oc
  | .shell wr oc => handleShellRequest host st s wr oc
  | .other _ wr => (st, s, if wr then replyCall wr false else [])

/-- The `serviceRequests` loop over the request stream, without the deferred
destroy. -/
def requestLoop (host : Host) : Store → Session → List Request →
    Store × Session × List Event
  | st, s, [] => (st, s, [])
  | st, s, r :: rs =>
      let t := step host st s r
      let u := requestLoop host t.1 t.2.1 rs
      (u.1, u.2.1, t.2.2 ++ u.2.2)

/-- `serviceRequests`: process every request in order, then run the deferred
`sess.destroy()` when the stream ends. -/
def serviceRequests (host : Host) (st : Store) (s : Session) (reqs : List Request) :
    Store × Session × List Event :=
  let u := requestLoop host st s reqs
  let d := destroy u.2.1
  (u.1, d.1, u.2.2 ++ d.2)

/-- N successive calls of `destroy` on a session, with the events of all
calls concatenated in order. -/
def destroyN : Nat → Session → Session × List Event
  | 0, s => (s, [])
  | n + 1, s =>
      let d := destroy s
      let r := destroyN n d.1
      (r.1, d.2 ++ r.2)

/-- Exit-report events: the `exit-status` / `exit-signal` channel requests. -/
def isExitMsg : Event → Bool
  | .sendExitStatus _ => true
  | .sendExitSignal _ _ => true
  | _ => false

/-- The events relevant to the exit-before-close invariant: exit reports and
the channel close. -/
def isLifeEvent (e : Event) : Bool :=
  isExitMsg e || e == Event.closeChannel

/-- Signals actually delivered to the child process.  A missing
`SyscallSignals` entry yields signal number 0, the null signal: per kill(2),
`kill(pid, 0)` performs error checking only and delivers no signal, so the
deliveries are the nonzero `signalChild` events. -/
def deliveredSignals (evs : List Event) : List Nat :=
  evs.filterMap (fun e =>
    match e with
    | .signalChild n => if n = 0 then none else some n
    | _ => none)

/-- The thirteen SSH signal names with a `SyscallSignals` entry (§4.A). -/
def sshSignalNames : List String :=
  ["ABRT", "ALRM", "FPE", "HUP", "ILL", "INT", "KILL",
   "PIPE", "QUIT", "SEGV", "TERM", "USR1", "USR2"]

/-- The two request kinds that reach `executeShell` and may start a child:
an exec request with a well-formed payload, and a shell request. -/
def Request.isRunRequest : Request → Bool
  | .exec _ p _ => p.isSome
  | .shell _ _ => true
  | _ => false

/-- A concrete host used by closed witness statements. -/
def sampleHost : Host :=
  { home := "/home/vcap", user := "vcap", hasTermSetter := fun _ => false }

/-- A concrete handler used by closed witness statements. -/
def sampleHandler : SessionChannelHandler :=
  { shellPath := "/bin/sh", defaultEnv := 0 }

/-- A concrete session with a started command, a live pty master and nothing
yet closed, used by closed witness statements. -/
def sampleRunningSession : Session :=
  { complete := false, shellPath := "/bin/sh", hasChannel := true, env := 0,
    command := some { path := "/bin/sh", args := [], env := [] }, allocPty := true,
    ptyRequest := { term := "xterm", columns := 80, rows := 24, width := 0,
                    height := 0, modelist := [] },
    ptyMaster := true }

/-! ### Helper lemmas -/

theorem destroy_of_complete (s : Session) (h : s.complete = true) :
    destroy s = (s, []) := by
  simp [destroy, h]

theorem destroy_complete_after (s : Session) : (destroy s).1.complete = true := by
  cases hc : s.complete <;> simp [destroy, hc]

theorem destroyN_of_complete (s : Session) (h : s.complete = true) :
    ∀ n, destroyN n s = (s, []) := by
  intro n
  induction n with
  | zero => rfl
  | succ k ih => simp [destroyN, destroy_of_complete s h, ih]

theorem storeGet_storeSet_self (st : Store) (r : Nat) (m : EnvMap) (h : r < st.length) :
    storeGet (storeSet st r m) r = m := by
  simp [storeGet, storeSet, List.getD]
  rw [List.getElem?_set_self]
  · simp
  · simpa using h

/-! ### C1: exec with an SCP-matching command -/

/-- C1 (code_bug evidence): on the exec payload `scp -t /tmp/x` — which
matches the SCP regex — `handleExecRequest` invokes the SCP handler AND still
spawns `<shell> -c "scp -t /tmp/x"`: the event trace contains both the SCP
dispatch and the shell start, refuting "no shell spawn". -/
theorem scp_exec_still_spawns_shell :
    scpMatch "scp -t /tmp/x" = true ∧
    (handleExecRequest ⟨"/root", "vcap", fun _ => false⟩ [[]]
        (newSession ⟨"/bin/sh", 0⟩) true (some ⟨"scp -t /tmp/x"⟩)
        ⟨false, false, .exited 0⟩).2.2 =
      [Event.scpRequest "scp -t /tmp/x",
       Event.reply true,
       Event.startCommand "/bin/sh" ["-c", "scp -t /tmp/x"]
         ["PATH=/bin:/usr/bin", "LANG=en_US.UTF8", "HOME=/root", "USER=vcap"],
       Event.sendExitStatus 0,
       Event.closeChannel] := by
  decide

/-! ### C2: env maps are shared between sessions of one handler -/

/-- C2 (counterexample): two sessions of the same handler observe the same
env map — after an env request sets X=Y in one session, the map read through
the other session's reference has changed. -/
theorem env_shared_cex :
    storeGet (handleEnvironmentRequest [[("A", "1")]]
        (newSession ⟨"/bin/sh", 0⟩) true (some ⟨"X", "Y"⟩)).1
        (newSession ⟨"/bin/sh", 0⟩).env
      ≠ storeGet [[("A", "1")]] (newSession ⟨"/bin/sh", 0⟩).env := by
  decide

/-- C2 (amended): `newSession` assigns the handler's `defaultEnv` map
reference itself, so every session of one handler aliases the same map, and
an env request handled in one session updates the map observed through any
other session of that handler. -/
theorem env_shared_across_sessions (handler : SessionChannelHandler) (st : Store)
    (wantReply : Bool) (m : EnvMsg) (h : handler.defaultEnv < st.length) :
    (newSession handler).env = handler.defaultEnv ∧
    storeGet (handleEnvironmentRequest st (newSession handler) wantReply (some m)).1
        (newSession handler).env
      = mapSet (storeGet st handler.defaultEnv) m.name m.value := by
  refine ⟨rfl, ?_⟩
  simp only [handleEnvironmentRequest, newSession]
  exact storeGet_storeSet_self st handler.defaultEnv _ h

/-- C2 witness: the amended statement at a concrete handler and store. -/
theorem env_shared_across_sessions_witness :
    (0 : Nat) < ([[("A", "1")]] : Store).length ∧
    (newSession ⟨"/bin/sh", 0⟩).env = 0 ∧
    storeGet (handleEnvironmentRequest [[("A", "1")]]
        (newSession ⟨"/bin/sh", 0⟩) true (some ⟨"X", "Y"⟩)).1
        (newSession ⟨"/bin/sh", 0⟩).env
      = mapSet (storeGet [[("A", "1")]] 0) "X" "Y" :=
  ⟨by decide,
    (env_shared_across_sessions ⟨"/bin/sh", 0⟩ [[("A", "1")]] true ⟨"X", "Y"⟩
      (by decide)).1,
    (env_shared_across_sessions ⟨"/bin/sh", 0⟩ [[("A", "1")]] true ⟨"X", "Y"⟩
      (by decide)).2⟩

/-! ### C4: child environment -/

/-- C4: the environment list built by `session.environment()` is PATH and
LANG, then every session env var whose key is neither HOME nor USER, then
HOME and USER read from the host process environment — so the HOME and USER
entries appended at the end never come from session values. -/
theorem environment_home_user_from_host (m : EnvMap) (host : Host) :
    environment m host =
      ["PATH=/bin:/usr/bin", "LANG=en_US.UTF8"]
        ++ (m.filter (fun p => p.1 != "HOME" && p.1 != "USER")).map
            (fun p => p.1 ++ "=" ++ p.2)
        ++ ["HOME=" ++ host.home, "USER=" ++ host.user] ∧
    "PATH=/bin:/usr/bin" ∈ environment m host ∧
    "LANG=en_US.UTF8" ∈ environment m host ∧
    ∀ p ∈ m.filter (fun p => p.1 != "HOME" && p.1 != "USER"),
      p.1 ≠ "HOME" ∧ p.1 ≠ "USER" := by
  refine ⟨rfl, by simp [environment], by simp [environment], ?_⟩
  intro p hp
  have := List.of_mem_filter hp
  simp only [Bool.and_eq_true, bne_iff_ne, ne_eq] at this
  exact this

/-- C4 witness: the statement evaluated at a concrete session env holding
client-supplied HOME and USER values, which do not survive. -/
theorem environment_home_user_from_host_witness :
    environment [("HOME", "/evil"), ("TERM", "xterm"), ("USER", "root")]
        ⟨"/home/vcap", "vcap", fun _ => false⟩ =
      ["PATH=/bin:/usr/bin", "LANG=en_US.UTF8"]
        ++ ([("HOME", "/evil"), ("TERM", "xterm"), ("USER", "root")].filter
              (fun p => p.1 != "HOME" && p.1 != "USER")).map
            (fun p => p.1 ++ "=" ++ p.2)
        ++ ["HOME=/home/vcap", "USER=vcap"] ∧
    ∀ p ∈ ([("HOME", "/evil"), ("TERM", "xterm"), ("USER", "root")] : EnvMap).filter
        (fun p => p.1 != "HOME" && p.1 != "USER"),
      p.1 ≠ "HOME" ∧ p.1 ≠ "USER" :=
  ⟨(environment_home_user_from_host
      [("HOME", "/evil"), ("TERM", "xterm"), ("USER", "root")]
      ⟨"/home/vcap", "vcap", fun _ => false⟩).1,
   (environment_home_user_from_host
      [("HOME", "/evil"), ("TERM", "xterm"), ("USER", "root")]
      ⟨"/home/vcap", "vcap", fun _ => false⟩).2.2.2⟩

/-! ### C8: pty-req -/

/-- C8 (counterexample): a well-formed pty-req handled while a command runs
on a live pty produces only the true reply — it does not apply the requested
window size to the live pty (no setWinSize effect), contrary to the claim. -/
theorem pty_req_no_live_resize_cex :
    (handlePtyRequest [[]]
        { complete := false, shellPath := "/bin/sh", hasChannel := true, env := 0,
          command := some ⟨"/bin/sh", [], []⟩, allocPty := true,
          ptyRequest := ⟨"xterm", 80, 24, 0, 0, []⟩, ptyMaster := true }
        true (some ⟨"vt100", 132, 50, 0, 0, []⟩)).2.2 = [Event.reply true] ∧
    Event.setWinSize 132 50 ∉
      (handlePtyRequest [[]]
        { complete := false, shellPath := "/bin/sh", hasChannel := true, env := 0,
          command := some ⟨"/bin/sh", [], []⟩, allocPty := true,
          ptyRequest := ⟨"xterm", 80, 24, 0, 0, []⟩, ptyMaster := true }
        true (some ⟨"vt100", 132, 50, 0, 0, []⟩)).2.2 := by
  decide

/-- C8 (amended): every well-formed pty-req — whether or not a command is
running — sets allocPty, stores the request, sets the session env's TERM to
the request's Term, and replies true when want_reply is set; it never emits a
window-size change (resizing a live pty happens only via window-change). -/
theorem pty_req_stores_and_replies (st : Store) (s : Session) (wantReply : Bool)
    (m : PtyRequestMsg) :
    handlePtyRequest st s wantReply (some m) =
      (storeSet st s.env (mapSet (storeGet st s.env) "TERM" m.term),
        { s with allocPty := true, ptyRequest := m },
        if wantReply then [Event.reply true] else []) ∧
    ∀ c r, Event.setWinSize c r ∉ (handlePtyRequest st s wantReply (some m)).2.2 := by
  constructor
  · simp [handlePtyRequest, replyCall]
  · intro c r
    cases wantReply <;> simp [handlePtyRequest, replyCall]

/-! ### C10: unrecognized request types -/

/-- C10: a request of a type outside env/signal/pty-req/window-change/exec/
shell gets exactly one false reply when want_reply is set (none otherwise),
changes no session state, and the loop continues processing the remaining
requests from the unchanged state. -/
theorem unknown_request_replies_false (host : Host) (st : Store) (s : Session)
    (reqType : String) (wantReply : Bool) (rest : List Request) :
    step host st s (.other reqType wantReply) =
      (st, s, if wantReply then [Event.reply false] else []) ∧
    ((step host st s (.other reqType wantReply)).2.2.filter
        (fun e => match e with | .reply _ => true | _ => false)).length
      = (if wantReply then 1 else 0) ∧
    requestLoop host st s (.other reqType wantReply :: rest) =
      ((requestLoop host st s rest).1, (requestLoop host st s rest).2.1,
        (if wantReply then [Event.reply false] else [])
          ++ (requestLoop host st s rest).2.2) := by
  refine ⟨by simp [step, replyCall], ?_, ?_⟩
  · cases wantReply <;> simp [step, replyCall]
  · simp [requestLoop, step, replyCall]

/-! ### C5: destroy is idempotent -/

/-- C5: N ≥ 1 calls of destroy leave the same state and the same total
events as one call, the session ends complete, any further call is a no-op,
and the single effective call closes the channel and the pty master exactly
once each (when present and not already complete). -/
theorem destroy_idempotent (s : Session) (n : Nat) (h : 1 ≤ n) :
    destroyN n s = destroyN 1 s ∧
    (destroy s).1.complete = true ∧
    (∀ m, destroyN m (destroy s).1 = ((destroy s).1, [])) ∧
    ((destroy s).2.filter (fun e => e == Event.closeChannel)).length
      = (if s.complete = false ∧ s.hasChannel = true then 1 else 0) ∧
    ((destroy s).2.filter (fun e => e == Event.closePtyMaster)).length
      = (if s.complete = false ∧ s.ptyMaster = true then 1 else 0) := by
  have hafter := destroy_complete_after s
  have hnoop := destroyN_of_complete (destroy s).1 hafter
  refine ⟨?_, hafter, hnoop, ?_, ?_⟩
  · obtain ⟨k, rfl⟩ : ∃ k, n = k + 1 := ⟨n - 1, by omega⟩
    simp [destroyN, hnoop]
  · cases hc : s.complete <;> cases hh : s.hasChannel <;> cases hp : s.ptyMaster <;>
      simp [destroy, hc, hh, hp]
  · cases hc : s.complete <;> cases hh : s.hasChannel <;> cases hp : s.ptyMaster <;>
      simp [destroy, hc, hh, hp]

/-- C5 witness: three destroy calls on a live session equal one call, which
closes the channel and pty master exactly once. -/
theorem destroy_idempotent_witness :
    destroyN 3 sampleRunningSession = destroyN 1 sampleRunningSession ∧
    (destroy sampleRunningSession).1.complete = true ∧
    ((destroy sampleRunningSession).2.filter
        (fun e => e == Event.closeChannel)).length = 1 ∧
    ((destroy sampleRunningSession).2.filter
        (fun e => e == Event.closePtyMaster)).length = 1 := by
  have t := destroy_idempotent sampleRunningSession 3 (by decide)
  refine ⟨t.1, t.2.1, ?_, ?_⟩
  · rw [t.2.2.2.1]; decide
  · rw [t.2.2.2.2]; decide

/-! ### C6: termios modelist parser -/

/-- C6: the modelist scan stops on end of input, on opcode 0 and on any
opcode ≥ 160; a mid-range opcode (1–159) always consumes its 4 value bytes
and parsing continues with the rest, and an opcode with no TermAttrSetters
entry is merely skipped by the attribute application, never fatal. -/
theorem modelist_parser_stops_and_skips (op b1 b2 b3 b4 : Nat) (rest : List Nat)
    (hasTermSetter : Nat → Bool) (h1 : 1 ≤ op) (h2 : op ≤ 159) :
    parseModelist [] = [] ∧
    (∀ tail : List Nat, parseModelist (0 :: tail) = []) ∧
    (∀ op2, 160 ≤ op2 → ∀ tail : List Nat, parseModelist (op2 :: tail) = []) ∧
    parseModelist (op :: b1 :: b2 :: b3 :: b4 :: rest) =
      (op, ((b1 * 256 + b2) * 256 + b3) * 256 + b4) :: parseModelist rest ∧
    (hasTermSetter op = false →
      setTerminalAttributes hasTermSetter (op :: b1 :: b2 :: b3 :: b4 :: rest) =
        setTerminalAttributes hasTermSetter rest) := by
  have hcond : (decide (op = 0) || decide (160 ≤ op)) = false := by
    simp; omega
  have hparse : parseModelist (op :: b1 :: b2 :: b3 :: b4 :: rest) =
      (op, ((b1 * 256 + b2) * 256 + b3) * 256 + b4) :: parseModelist rest := by
    rw [parseModelist.eq_def]
    dsimp only
    rw [if_neg (by simp [hcond])]
  refine ⟨rfl, ?_, ?_, hparse, ?_⟩
  · intro tail
    unfold parseModelist
    simp
  · intro op2 hop tail
    have hc2 : (decide (op2 = 0) || decide (160 ≤ op2)) = true := by
      simp; omega
    unfold parseModelist
    rw [if_pos]
    simpa using hc2
  · intro hknown
    simp [setTerminalAttributes, hparse, hknown]

/-- C6 witness: opcode 100 with no setter entry consumes exactly its 4 value
bytes, parsing continues and stops at the following opcode 0, and the
attribute application skips it without failing. -/
theorem modelist_parser_witness :
    parseModelist [100, 0, 0, 0, 7, 0, 9, 9, 9, 9] = [(100, 7)] ∧
    setTerminalAttributes (fun _ => false) [100, 0, 0, 0, 7] =
      setTerminalAttributes (fun _ => false) [] := by
  constructor
  · rw [(modelist_parser_stops_and_skips 100 0 0 0 7 [0, 9, 9, 9, 9] (fun _ => false)
        (by decide) (by decide)).2.2.2.1,
      (modelist_parser_stops_and_skips 100 0 0 0 7 [0, 9, 9, 9, 9] (fun _ => false)
        (by decide) (by decide)).2.1 [9, 9, 9, 9]]
  · exact (modelist_parser_stops_and_skips 100 0 0 0 7 [] (fun _ => false)
      (by decide) (by decide)).2.2.2.2 rfl

/-! ### C7: signal requests -/

theorem syscallSignals_zero_of_unknown (name : String) (h : name ∉ sshSignalNames) :
    syscallSignals name = 0 := by
  simp [sshSignalNames] at h
  obtain ⟨h1, h2, h3, h4, h5, h6, h7, h8, h9, h10, h11, h12, h13⟩ := h
  simp [syscallSignals, h1, h2, h3, h4, h5, h6, h7, h8, h9, h10, h11, h12, h13]

/-- C7: with a child running, a well-formed signal request signals the child
with the `SyscallSignals` translation of the SSH signal name (USR1 ↦ 10,
SIGUSR1) and replies true when want_reply is set; a name with no table entry
translates to the null signal 0, so no signal is delivered to the child; with
no child running the request only replies true. -/
theorem signal_request_behavior (st : Store) (s : Session) (wantReply : Bool)
    (name : String) :
    (∀ c, s.command = some c →
      handleSignalRequest st s wantReply (some ⟨name⟩) =
        (st, s, Event.signalChild (syscallSignals name)
          :: (if wantReply then [Event.reply true] else []))) ∧
    syscallSignals "USR1" = 10 ∧
    (name ∉ sshSignalNames →
      deliveredSignals (handleSignalRequest st s wantReply (some ⟨name⟩)).2.2 = []) ∧
    (s.command = none →
      handleSignalRequest st s wantReply (some ⟨name⟩) =
        (st, s, if wantReply then [Event.reply true] else [])) := by
  refine ⟨?_, by decide, ?_, ?_⟩
  · intro c hc
    cases wantReply <;> simp [handleSignalRequest, hc, replyCall]
  · intro h
    have h0 := syscallSignals_zero_of_unknown name h
    cases hc : s.command <;> cases wantReply <;>
      simp [handleSignalRequest, hc, replyCall, deliveredSignals, h0]
  · intro hc
    cases wantReply <;> simp [handleSignalRequest, hc, replyCall]

/-- C7 witness: USR1 delivers signal 10 to the running child with reply
true, and an unmapped name delivers nothing. -/
theorem signal_request_witness :
    handleSignalRequest [[]] sampleRunningSession true (some ⟨"USR1"⟩) =
      ([[]], sampleRunningSession, [Event.signalChild 10, Event.reply true]) ∧
    deliveredSignals
      (handleSignalRequest [[]] sampleRunningSession true (some ⟨"WINCH"⟩)).2.2 = [] := by
  constructor
  · have h := (signal_request_behavior [[]] sampleRunningSession true "USR1").1
      { path := "/bin/sh", args := [], env := [] } rfl
    simpa using h
  · exact (signal_request_behavior [[]] sampleRunningSession true "WINCH").2.2.1
      (by decide)

/-! ### C9: malformed payloads -/

/-- C9: a request whose payload fails to unmarshal gets a false reply on the
wire exactly when want_reply is set, changes neither the store nor the
session (in particular the session is not destroyed), and the request loop
continues with the remaining requests from the unchanged state. -/
theorem malformed_request_replies_false_and_continues (host : Host) (st : Store)
    (s : Session) (r : Request) (rest : List Request) (h : r.malformed = true) :
    step host st s r = (st, s, if r.wantReply then [Event.reply false] else []) ∧
    requestLoop host st s (r :: rest) =
      ((requestLoop host st s rest).1, (requestLoop host st s rest).2.1,
        (if r.wantReply then [Event.reply false] else [])
          ++ (requestLoop host st s rest).2.2) := by
  have hstep : step host st s r = (st, s, if r.wantReply then [Event.reply false] else []) := by
    cases r with
    | env wr p =>
        cases p with
        | none => simp [step, handleEnvironmentRequest, replyCall, Request.wantReply]
        | some m => simp [Request.malformed] at h
    | signal wr p =>
        cases p with
        | none => simp [step, handleSignalRequest, replyCall, Request.wantReply]
        | some m => simp [Request.malformed] at h
    | ptyReq wr p =>
        cases p with
        | none => simp [step, handlePtyRequest, replyCall, Request.wantReply]
        | some m => simp [Request.malformed] at h
    | windowChange wr p =>
        cases p with
        | none => simp [step, handleWindowChangeRequest, replyCall, Request.wantReply]
        | some m => simp [Request.malformed] at h
    | exec wr p oc =>
        cases p with
        | none => simp [step, handleExecRequest, replyCall, Request.wantReply]
        | some m => simp [Request.malformed] at h
    | shell wr oc => simp [Request.malformed] at h
    | other t wr => simp [Request.malformed] at h
  refine ⟨hstep, ?_⟩
  simp [requestLoop, hstep]

/-- C9 witness: a malformed env request with want_reply replies false once
and the following request is processed as if nothing happened. -/
theorem malformed_request_witness :
    step sampleHost [[]] (newSession sampleHandler) (.env true none) =
      ([[]], newSession sampleHandler, [Event.reply false]) ∧
    requestLoop sampleHost [[]] (newSession sampleHandler)
        [.env true none, .other "bogus" true] =
      ((requestLoop sampleHost [[]] (newSession sampleHandler) [.other "bogus" true]).1,
        (requestLoop sampleHost [[]] (newSession sampleHandler) [.other "bogus" true]).2.1,
        [Event.reply false]
          ++ (requestLoop sampleHost [[]] (newSession sampleHandler)
                [.other "bogus" true]).2.2) := by
  have t := malformed_request_replies_false_and_continues sampleHost [[]]
    (newSession sampleHandler) (.env true none) [.other "bogus" true] (by decide)
  exact ⟨by simpa using t.1, by simpa using t.2⟩

theorem isExitMsg_sendExitMessage (w : WaitOutcome) :
    isExitMsg (sendExitMessage w) = true := by
  cases w <;> simp [sendExitMessage, isExitMsg]

theorem life_reply (b : Bool) : isLifeEvent (Event.reply b) = false := by
  simp [isLifeEvent, isExitMsg]

theorem life_scp (c : String) : isLifeEvent (Event.scpRequest c) = false := by
  simp [isLifeEvent, isExitMsg]

theorem life_termAttr (o v : Nat) : isLifeEvent (Event.termAttr o v) = false := by
  simp [isLifeEvent, isExitMsg]

theorem life_setWinSize (c r : Nat) : isLifeEvent (Event.setWinSize c r) = false := by
  simp [isLifeEvent, isExitMsg]

theorem life_startCommand (p : String) (a e : List String) :
    isLifeEvent (Event.startCommand p a e) = false := by
  simp [isLifeEvent, isExitMsg]

theorem life_signalChild (n : Nat) : isLifeEvent (Event.signalChild n) = false := by
  simp [isLifeEvent, isExitMsg]

theorem life_closePty : isLifeEvent Event.closePtyMaster = false := by
  simp [isLifeEvent, isExitMsg]

theorem life_closeChannel : isLifeEvent Event.closeChannel = true := by
  simp [isLifeEvent]

theorem life_exit (e : Event) (h : isExitMsg e = true) : isLifeEvent e = true := by
  simp [isLifeEvent, h]

theorem filter_life_termAttrs (l : List (Nat × Nat)) :
    (l.map (fun p => Event.termAttr p.1 p.2)).filter isLifeEvent = [] := by
  induction l with
  | nil => rfl
  | cons p t ih => simp [List.filter_cons, life_termAttr, ih]

theorem filter_life_replyCall (wr b : Bool) :
    (replyCall wr b).filter isLifeEvent = [] := by
  cases wr <;> simp [replyCall, List.filter_cons, life_reply]

theorem executeShell_life (host : Host) (st : Store) (s : Session) (wr : Bool)
    (args : List String) (oc : RunOutcome)
    (hc : s.command = none) (hcm : s.complete = false) (hch : s.hasChannel = true) :
    (executeShell host st s wr args oc).2.1.command.isSome = true ∧
    (executeShell host st s wr args oc).2.1.complete = true ∧
    (executeShell host st s wr args oc).2.1.hasChannel = true ∧
    ∃ e, isExitMsg e = true ∧
      (executeShell host st s wr args oc).2.2.filter isLifeEvent = [e, Event.closeChannel] := by
  have hex := isExitMsg_sendExitMessage oc.waitRes
  have hlex := life_exit _ hex
  cases hp : s.allocPty <;> cases hpo : oc.ptyOpenErr <;> cases hse : oc.startErr <;>
    cases hpm : s.ptyMaster <;>
      simp [executeShell, createCommand, hc, hcm, hch, hp, hpo, hse, hpm, runCmd,
            runWithPty, destroy, List.filter_append, List.filter_cons,
            filter_life_termAttrs, filter_life_replyCall, life_reply, life_setWinSize,
            life_startCommand, life_closePty, life_closeChannel, hlex, hex] <;>
    cases wr <;>
      simp [replyCall, List.filter_cons, life_reply, isLifeEvent, isExitMsg] <;>
      exact hex

theorem executeShell_already_started (host : Host) (st : Store) (s : Session)
    (wr : Bool) (args : List String) (oc : RunOutcome) (c : Cmd)
    (h : s.command = some c) :
    executeShell host st s wr args oc = (st, s, if wr then replyCall wr false else []) := by
  simp [executeShell, createCommand, h]

theorem step_frame (host : Host) (st : Store) (s : Session) (r : Request)
    (h : r.isRunRequest = false) :
    (step host st s r).2.1.complete = s.complete ∧
    (step host st s r).2.1.command = s.command ∧
    (step host st s r).2.1.hasChannel = s.hasChannel ∧
    (step host st s r).2.2.filter isLifeEvent = [] := by
  cases r with
  | env wr p =>
      cases p with
      | none =>
          refine ⟨rfl, rfl, rfl, ?_⟩
          simp [step, handleEnvironmentRequest, filter_life_replyCall]
      | some m =>
          cases wr <;>
            simp [step, handleEnvironmentRequest, replyCall, List.filter_cons, life_reply]
  | signal wr p =>
      cases p with
      | none =>
          cases wr <;>
            simp [step, handleSignalRequest, replyCall, List.filter_cons, life_reply]
      | some m =>
          cases hc : s.command <;> cases wr <;>
            simp [step, handleSignalRequest, hc, replyCall, List.filter_cons,
                  life_reply, life_signalChild]
  | ptyReq wr p =>
      cases p with
      | none =>
          cases wr <;>
            simp [step, handlePtyRequest, replyCall, List.filter_cons, life_reply]
      | some m =>
          cases wr <;>
            simp [step, handlePtyRequest, replyCall, List.filter_cons, life_reply]
  | windowChange wr p =>
      cases p with
      | none =>
          cases wr <;>
            simp [step, handleWindowChangeRequest, replyCall, List.filter_cons, life_reply]
      | some m =>
          cases hap : s.allocPty <;> cases hpm : s.ptyMaster <;> cases wr <;>
            simp [step, handleWindowChangeRequest, hap, hpm, replyCall,
                  List.filter_cons, life_reply, life_setWinSize]
  | exec wr p oc =>
      cases p with
      | none =>
          cases wr <;>
            simp [step, handleExecRequest, replyCall, List.filter_cons, life_reply]
      | some m => simp [Request.isRunRequest] at h
  | shell wr oc => simp [Request.isRunRequest] at h
  | other t wr =>
      cases wr <;> simp [step, replyCall, List.filter_cons, life_reply]

theorem step_run_already_started (host : Host) (st : Store) (s : Session)
    (r : Request) (hr : r.isRunRequest = true) (c : Cmd) (hc : s.command = some c) :
    (step host st s r).1 = st ∧
    (step host st s r).2.1 = s ∧
    (step host st s r).2.2.filter isLifeEvent = [] := by
  cases r with
  | exec wr p oc =>
      cases p with
      | none => simp [Request.isRunRequest] at hr
      | some m =>
          cases hm : scpMatch m.command <;> cases wr <;>
            simp [step, handleExecRequest, executeShell_already_started host st s _ _ _ c hc,
                  hm, replyCall, List.filter_cons, life_reply, life_scp]
  | shell wr oc =>
      cases wr <;>
        simp [step, handleShellRequest, executeShell_already_started host st s _ _ _ c hc,
              replyCall, List.filter_cons, life_reply]
  | env wr p => simp [Request.isRunRequest] at hr
  | signal wr p => simp [Request.isRunRequest] at hr
  | ptyReq wr p => simp [Request.isRunRequest] at hr
  | windowChange wr p => simp [Request.isRunRequest] at hr
  | other t wr => simp [Request.isRunRequest] at hr

theorem step_run_fresh (host : Host) (st : Store) (s : Session) (r : Request)
    (hr : r.isRunRequest = true) (hc : s.command = none) (hcm : s.complete = false)
    (hch : s.hasChannel = true) :
    (step host st s r).2.1.command.isSome = true ∧
    (step host st s r).2.1.complete = true ∧
    (step host st s r).2.1.hasChannel = true ∧
    ∃ e, isExitMsg e = true ∧
      (step host st s r).2.2.filter isLifeEvent = [e, Event.closeChannel] := by
  cases r with
  | exec wr p oc =>
      cases p with
      | none => simp [Request.isRunRequest] at hr
      | some m =>
          have hl := executeShell_life host st s wr ["-c", m.command] oc hc hcm hch
          obtain ⟨e, he, hf⟩ := hl.2.2.2
          refine ⟨?_, ?_, ?_, e, he, ?_⟩
          · simpa [step, handleExecRequest] using hl.1
          · simpa [step, handleExecRequest] using hl.2.1
          · simpa [step, handleExecRequest] using hl.2.2.1
          · cases hm : scpMatch m.command <;>
              simp [step, handleExecRequest, hm, List.filter_append, List.filter_cons,
                    life_scp, hf]
  | shell wr oc =>
      have hl := executeShell_life host st s wr [] oc hc hcm hch
      obtain ⟨e, he, hf⟩ := hl.2.2.2
      exact ⟨by simpa [step, handleShellRequest] using hl.1,
             by simpa [step, handleShellRequest] using hl.2.1,
             by simpa [step, handleShellRequest] using hl.2.2.1,
             e, he, by simpa [step, handleShellRequest] using hf⟩
  | env wr p => simp [Request.isRunRequest] at hr
  | signal wr p => simp [Request.isRunRequest] at hr
  | ptyReq wr p => simp [Request.isRunRequest] at hr
  | windowChange wr p => simp [Request.isRunRequest] at hr
  | other t wr => simp [Request.isRunRequest] at hr

theorem requestLoop_cons (host : Host) (st : Store) (s : Session) (r : Request)
    (rs : List Request) :
    requestLoop host st s (r :: rs) =
      ((requestLoop host (step host st s r).1 (step host st s r).2.1 rs).1,
       (requestLoop host (step host st s r).1 (step host st s r).2.1 rs).2.1,
       (step host st s r).2.2
         ++ (requestLoop host (step host st s r).1 (step host st s r).2.1 rs).2.2) := rfl

theorem requestLoop_life (host : Host) (reqs : List Request) :
    ∀ (st : Store) (s : Session),
      s.complete = s.command.isSome → s.hasChannel = true →
      (requestLoop host st s reqs).2.1.hasChannel = true ∧
      (requestLoop host st s reqs).2.1.complete
        = (requestLoop host st s reqs).2.1.command.isSome ∧
      (s.command.isSome = true →
        (requestLoop host st s reqs).2.1.command.isSome = true ∧
        (requestLoop host st s reqs).2.2.filter isLifeEvent = []) ∧
      (s.command.isSome = false →
        ((requestLoop host st s reqs).2.1.command.isSome = false →
          (requestLoop host st s reqs).2.2.filter isLifeEvent = []) ∧
        ((requestLoop host st s reqs).2.1.command.isSome = true →
          ∃ e, isExitMsg e = true ∧
            (requestLoop host st s reqs).2.2.filter isLifeEvent
              = [e, Event.closeChannel])) := by
  induction reqs with
  | nil =>
      intro st s h1 h2
      refine ⟨h2, h1, fun hs => ⟨hs, rfl⟩, fun hs => ⟨fun _ => rfl, fun hres => ?_⟩⟩
      simp [requestLoop, hs] at hres
  | cons r rs ih =>
      intro st s h1 h2
      simp only [requestLoop_cons]
      by_cases hr : r.isRunRequest = true
      · cases hc : s.command with
        | some c =>
            have hfr := step_run_already_started host st s r hr c hc
            rw [hfr.1, hfr.2.1]
            have ihh := ih st s h1 h2
            have h3 := ihh.2.2.1 (by rw [hc]; simp)
            refine ⟨ihh.1, ihh.2.1, ?_, ?_⟩
            · intro hs
              exact ⟨h3.1, by simp [List.filter_append, hfr.2.2, h3.2]⟩
            · intro hs
              simp at hs
        | none =>
            have hcm : s.complete = false := by rw [h1, hc]; simp
            have hsf := step_run_fresh host st s r hr hc hcm h2
            obtain ⟨e, he, hfe⟩ := hsf.2.2.2
            have ihh := ih (step host st s r).1 (step host st s r).2.1
              (by rw [hsf.2.1, hsf.1]) hsf.2.2.1
            have hstart := ihh.2.2.1 hsf.1
            refine ⟨ihh.1, ihh.2.1, ?_, ?_⟩
            · intro hs
              simp at hs
            · intro hs
              refine ⟨?_, ?_⟩
              · intro hres
                rw [hstart.1] at hres
                simp at hres
              · intro hres
                exact ⟨e, he, by simp [List.filter_append, hfe, hstart.2]⟩
      · have hfr := step_frame host st s r (by simpa using hr)
        have ihh := ih (step host st s r).1 (step host st s r).2.1
          (by rw [hfr.1, hfr.2.1]; exact h1) (by rw [hfr.2.2.1]; exact h2)
        refine ⟨ihh.1, ihh.2.1, ?_, ?_⟩
        · intro hs
          have h3 := ihh.2.2.1 (by rw [hfr.2.1]; exact hs)
          exact ⟨h3.1, by simp [List.filter_append, hfr.2.2.2, h3.2]⟩
        · intro hs
          have h4 := ihh.2.2.2 (by rw [hfr.2.1]; exact hs)
          refine ⟨?_, ?_⟩
          · intro hres
            have h5 := h4.1 hres
            simp [List.filter_append, hfr.2.2.2, h5]
          · intro hres
            obtain ⟨e, he, hfe⟩ := h4.2 hres
            exact ⟨e, he, by simp [List.filter_append, hfr.2.2.2, hfe]⟩


theorem destroy_preserves_command (s : Session) :
    (destroy s).1.command = s.command := by
  cases hc : s.complete <;> simp [destroy, hc]

theorem serviceRequests_def (host : Host) (st : Store) (s : Session)
    (reqs : List Request) :
    serviceRequests host st s reqs =
      ((requestLoop host st s reqs).1,
       (destroy (requestLoop host st s reqs).2.1).1,
       (requestLoop host st s reqs).2.2
         ++ (destroy (requestLoop host st s reqs).2.1).2) := rfl

/-! ### C3: one exit message, before the channel close -/

/-- C3: for any request stream served on a fresh session, if a child was
started then the subsequence of exit-report and channel-close events of the
whole session trace is exactly one exit-status/exit-signal message followed
by the channel close: the exit report is sent exactly once, and before the
channel is closed. -/
theorem child_exit_message_once_before_close (host : Host) (st : Store)
    (handler : SessionChannelHandler) (reqs : List Request)
    (h : (serviceRequests host st (newSession handler) reqs).2.1.command.isSome = true) :
    ∃ e, isExitMsg e = true ∧
      (serviceRequests host st (newSession handler) reqs).2.2.filter isLifeEvent
        = [e, Event.closeChannel] := by
  have hinv := requestLoop_life host reqs st (newSession handler)
    (by simp [newSession]) (by simp [newSession])
  have hcmd : (requestLoop host st (newSession handler) reqs).2.1.command.isSome = true := by
    have h2 := h
    rw [serviceRequests_def] at h2
    simpa [destroy_preserves_command] using h2
  obtain ⟨e, he, hfe⟩ := (hinv.2.2.2 (by simp [newSession])).2 hcmd
  have hcomplete : (requestLoop host st (newSession handler) reqs).2.1.complete = true := by
    rw [hinv.2.1, hcmd]
  refine ⟨e, he, ?_⟩
  rw [serviceRequests_def]
  simp [List.filter_append, hfe, destroy_of_complete _ hcomplete]

/-- C3 witness: a session that serves one successful exec request emits
exactly one exit message followed by the channel close. -/
theorem child_exit_message_once_witness :
    (serviceRequests sampleHost [[]] (newSession sampleHandler)
        [.exec true (some ⟨"ls"⟩) ⟨false, false, .exited 0⟩]).2.1.command.isSome = true ∧
    ∃ e, isExitMsg e = true ∧
      (serviceRequests sampleHost [[]] (newSession sampleHandler)
          [.exec true (some ⟨"ls"⟩) ⟨false, false, .exited 0⟩]).2.2.filter isLifeEvent
        = [e, Event.closeChannel] :=
  ⟨by decide,
   child_exit_message_once_before_close sampleHost [[]] sampleHandler
     [.exec true (some ⟨"ls"⟩) ⟨false, false, .exited 0⟩] (by decide)⟩

end DiegoSSH
